import Mathlib

/-!
Shallow embedding of the DHT core in `rn-praxis/dht.c` (ring arithmetic,
wire codec, responsibility resolution, lookup cache, message processor),
together with theorems settling the specification claims about it.

Machine integers are modelled as `Nat` with explicit reduction modulo the
type width where the C code relies on wraparound (`uint16_t` identifiers,
`unsigned long` timestamps).  Time (`time_ms()`) is passed in explicitly as
a `now : Nat` parameter.  Pointers that may be `NULL` become `Option`.
Sending a message is modelled by returning the pair of the message and its
destination peer instead of performing the `sendto` side effect.
-/

namespace Praxis3

/-- Size of the identifier ring: `dht_id` is `uint16_t`, so 2^16 values. -/
def RING : Nat := 65536

/-- 2^64, the modulus of C `unsigned long` on the target platform. -/
def U64 : Nat := 18446744073709551616

/-- `ULONG_MAX`, the largest `unsigned long` value. -/
def ULONG_MAX : Nat := U64 - 1

/-- `#define LOOKUP_CACHE_ENTRIES 30` -/
def LOOKUP_CACHE_ENTRIES : Nat := 30

/-- `#define LOOKUP_CACHE_VALIDIY_MS 2000` -/
def LOOKUP_CACHE_VALIDIY_MS : Nat := 2000

/-- Opcode `LOOKUP` (first enumerator, value 0). -/
def LOOKUP : Nat := 0

/-- Opcode `REPLY` (value 1). -/
def REPLY : Nat := 1

/-- Opcode `STABILIZE` (value 2). -/
def STABILIZE : Nat := 2

/-- Opcode `NOTIFY` (value 3). -/
def NOTIFY : Nat := 3

/-- Opcode `JOIN` (value 4). -/
def JOIN : Nat := 4

/-- C `uint16_t` subtraction `a - b`: wraparound modulo 2^16.  This is the
distance computation inside `is_responsible`
(`const dht_id distance_peer = peer - id;` etc.). -/
def usub16 (a b : Nat) : Nat := (a % RING + RING - b % RING) % RING

/-- C `unsigned long` subtraction `a - b`: wraparound modulo 2^64.
Used by `outdated` for `time_ms() - entry`. -/
def usub64 (a b : Nat) : Nat := (a % U64 + U64 - b % U64) % U64

/-- The spec's `distance(from, to) = to - from` on the 16-bit ring. -/
def distance (f t : Nat) : Nat := usub16 t f

/-- `struct peer { dht_id id; struct in_addr ip; uint16_t port; }`,
packed, compared bytewise by `peer_cmp`, hence structural equality. -/
structure Peer where
  id : Nat
  ip : Nat
  port : Nat
deriving DecidableEq, Repr, Inhabited

/-- `struct dht_message { uint8_t flags; dht_id hash; struct peer peer; }` -/
structure DhtMessage where
  flags : Nat
  hash : Nat
  peer : Peer
deriving DecidableEq, Repr, Inhabited

/-- One slot of `lookup_cache`:
`{ unsigned long entry; dht_id predecessor; struct peer peer; }` -/
structure CacheEntry where
  entry : Nat
  predecessor : Nat
  peer : Peer
deriving DecidableEq, Repr, Inhabited

/-- The process-wide DHT state read by the message processor: the three
peer slots and the 30-slot `lookup_cache` (modelled as a list). -/
structure DhtState where
  predecessor : Peer
  self : Peer
  successor : Peer
  lookup_cache : List CacheEntry
deriving DecidableEq, Repr, Inhabited

/-- `is_responsible(dht_id peer_predecessor, dht_id peer, dht_id id)`:
`(peer_predecessor == peer) || (distance_peer < distance_peer_predecessor)`
with both differences computed in `dht_id` (uint16) arithmetic. -/
def is_responsible (peer_predecessor peer id : Nat) : Bool :=
  (peer_predecessor == peer) || (usub16 peer id < usub16 peer_predecessor id)

/-- Byte swap of a 16-bit value: `ntohs`/`htons` on a little-endian host. -/
def bswap16 (n : Nat) : Nat := n % 256 * 256 + n / 256 % 256

/-- Byte swap of a 32-bit value: `ntohl`/`htonl` on a little-endian host. -/
def bswap32 (n : Nat) : Nat :=
  n % 256 * 16777216 + n / 256 % 256 * 65536 + n / 65536 % 256 * 256 +
    n / 16777216 % 256

/-- `ntohs` (= `htons`): 16-bit byte swap on the little-endian target. -/
def ntohs (n : Nat) : Nat := bswap16 n

/-- `ntohl` (= `htonl`): 32-bit byte swap on the little-endian target. -/
def ntohl (n : Nat) : Nat := bswap32 n

/-- `dht_deserialize`: swap the byte order of `hash`, `peer.id`, `peer.ip`
and `peer.port`; the `flags` byte is untouched. -/
def dht_deserialize (m : DhtMessage) : DhtMessage :=
  { flags := m.flags
    hash := ntohs m.hash
    peer := { id := ntohs m.peer.id, ip := ntohl m.peer.ip, port := ntohs m.peer.port } }

/-- `dht_serialize`: calls `dht_deserialize` — serialization is self-inverse. -/
def dht_serialize (m : DhtMessage) : DhtMessage :=
  dht_deserialize m

/-- A message bit pattern: each field fits its declared C width
(`uint8_t flags`, `uint16_t hash/id/port`, 32-bit `ip`). -/
def wfMessage (m : DhtMessage) : Prop :=
  m.flags < 256 ∧ m.hash < 65536 ∧ m.peer.id < 65536 ∧
    m.peer.ip < 4294967296 ∧ m.peer.port < 65536

/-- `outdated(entry)`: `(time_ms() - entry) >= LOOKUP_CACHE_VALIDIY_MS`,
with the subtraction in wraparound `unsigned long` arithmetic. -/
def outdated (now entry : Nat) : Bool :=
  decide (usub64 now entry ≥ LOOKUP_CACHE_VALIDIY_MS)

/-- `peer_cmp(a, b)`: `a && b && (memcmp(a, b, sizeof(struct peer)) == 0)`.
`NULL` pointers become `none`; the bytewise comparison of the packed struct
becomes structural equality. -/
def peer_cmp : Option Peer → Option Peer → Bool
  | some a, some b => a == b
  | _, _ => false

/-- The condition scanned for in the cache loop of `dht_responsible`:
`is_responsible(cache[i].predecessor, cache[i].peer.id, id)` and the entry
is not outdated. -/
def cacheHit (now id : Nat) (e : CacheEntry) : Bool :=
  is_responsible e.predecessor e.peer.id id && !outdated now e.entry

/-- `dht_responsible(id)`: self if responsible, else successor if
responsible, else the first non-stale matching cache entry in table order,
else `NULL`. -/
def dht_responsible (s : DhtState) (now id : Nat) : Option Peer :=
  if is_responsible s.predecessor.id s.self.id id then some s.self
  else if is_responsible s.self.id s.successor.id id then some s.successor
  else (s.lookup_cache.find? (cacheHit now id)).map CacheEntry.peer

/-- `process_lookup`: if `peer_cmp(&successor, dht_responsible(lookup->hash))`
fails, forward the lookup to the successor; otherwise send a REPLY with
`hash = self.id`, `peer = successor` to the lookup's originator.
The result is the pair (message sent, destination peer). -/
def process_lookup (s : DhtState) (now : Nat) (lookup : DhtMessage) :
    DhtMessage × Peer :=
  if !peer_cmp (some s.successor) (dht_responsible s now lookup.hash) then
    (lookup, s.successor)
  else
    ({ flags := REPLY, hash := s.self.id, peer := s.successor }, lookup.peer)

/-- The condition of the refresh loop in `process_reply`:
`peer_cmp(&lookup_cache[i].peer, &reply->peer)` (both pointers non-NULL,
hence structural equality) and `lookup_cache[i].entry < time_ms()`. -/
def refreshHit (reply : DhtMessage) (now : Nat) (e : CacheEntry) : Bool :=
  (e.peer == reply.peer) && decide (e.entry < now)

/-- The first loop of `process_reply`: on the first slot satisfying
`refreshHit`, set its timestamp to now and its predecessor to the reply's
hash (the peer field is not written) and return; `none` if no slot matched. -/
def refresh (reply : DhtMessage) (now : Nat) : List CacheEntry → Option (List CacheEntry)
  | [] => none
  | e :: rest =>
      if refreshHit reply now e then
        some ({ entry := now, predecessor := reply.hash, peer := e.peer } :: rest)
      else
        (refresh reply now rest).map (e :: ·)

/-- The second loop of `process_reply`, transcribed exactly: `oldest_time`
starts at `ULONG_MAX` and is never updated by the loop body, so `oldest_idx`
ends at the last index whose timestamp is below `ULONG_MAX`. -/
def evict_scan : List CacheEntry → Nat → Nat → Nat → Nat
  | [], _, _, oldest_idx => oldest_idx
  | e :: rest, i, oldest_time, oldest_idx =>
      if e.entry < oldest_time then evict_scan rest (i + 1) oldest_time i
      else evict_scan rest (i + 1) oldest_time oldest_idx

/-- Index selected by the eviction pass of `process_reply`. -/
def evict_idx (cache : List CacheEntry) : Nat :=
  evict_scan cache 0 ULONG_MAX 0

/-- `process_reply`: refresh pass, then (only if no refresh match) the
eviction pass overwriting slot `evict_idx` with the new claim. -/
def process_reply (cache : List CacheEntry) (reply : DhtMessage) (now : Nat) :
    List CacheEntry :=
  match refresh reply now cache with
  | some updated => updated
  | none =>
      cache.set (evict_idx cache)
        { entry := now, predecessor := reply.hash, peer := reply.peer }

/-- `dht_process_message`: dispatch on `flags`; LOOKUP and REPLY are
processed, anything else is reported and dropped.  The result pairs the new
state with the optional outgoing message and its destination. -/
def dht_process_message (s : DhtState) (now : Nat) (msg : DhtMessage) :
    DhtState × Option (DhtMessage × Peer) :=
  if msg.flags == LOOKUP then
    (s, some (process_lookup s now msg))
  else if msg.flags == REPLY then
    ({ s with lookup_cache := process_reply s.lookup_cache msg now }, none)
  else
    (s, none)

/-- A never-populated cache slot (the table is zero-initialized). -/
def zeroEntry : CacheEntry := { entry := 0, predecessor := 0, peer := ⟨0, 0, 0⟩ }

/-- The zero-initialized 30-slot lookup cache. -/
def zeroCache : List CacheEntry := List.replicate LOOKUP_CACHE_ENTRIES zeroEntry

/-! ## Arithmetic lemmas -/

/-- uint16 wraparound subtraction coincides with the mathematical
`(a - b) mod 65536` on integers. -/
lemma usub16_eq_int_emod (a b : Nat) :
    (usub16 a b : Int) = ((a : Int) - (b : Int)) % 65536 := by
  unfold usub16 RING
  have ha := Nat.mod_lt a (show 0 < 65536 by norm_num)
  have hb := Nat.mod_lt b (show 0 < 65536 by norm_num)
  omega

lemma usub16_self (a : Nat) : usub16 a a = 0 := by
  unfold usub16 RING
  omega

lemma usub16_ne_zero (a b : Nat) (ha : a < RING) (hb : b < RING) (h : a ≠ b) :
    usub16 a b ≠ 0 := by
  unfold usub16 RING at *
  omega

lemma bswap16_bswap16 (n : Nat) (h : n < 65536) : bswap16 (bswap16 n) = n := by
  have ha : n / 256 < 256 := by omega
  unfold bswap16
  rw [Nat.mod_eq_of_lt ha]
  have h1 : (n % 256 * 256 + n / 256) % 256 = n / 256 := by omega
  have h2 : (n % 256 * 256 + n / 256) / 256 = n % 256 := by omega
  rw [h1, h2]
  omega

lemma bswap32_bytes (b0 b1 b2 b3 : Nat)
    (h0 : b0 < 256) (h1 : b1 < 256) (h2 : b2 < 256) (h3 : b3 < 256) :
    bswap32 (b0 + b1 * 256 + b2 * 65536 + b3 * 16777216) =
      b3 + b2 * 256 + b1 * 65536 + b0 * 16777216 := by
  unfold bswap32
  have e0 : (b0 + b1 * 256 + b2 * 65536 + b3 * 16777216) % 256 = b0 := by omega
  have e1 : (b0 + b1 * 256 + b2 * 65536 + b3 * 16777216) / 256 =
      b1 + b2 * 256 + b3 * 65536 := by omega
  have e2 : (b0 + b1 * 256 + b2 * 65536 + b3 * 16777216) / 65536 =
      b2 + b3 * 256 := by omega
  have e3 : (b0 + b1 * 256 + b2 * 65536 + b3 * 16777216) / 16777216 = b3 := by
    omega
  rw [e0, e1, e2, e3]
  have f1 : (b1 + b2 * 256 + b3 * 65536) % 256 = b1 := by omega
  have f2 : (b2 + b3 * 256) % 256 = b2 := by omega
  rw [f1, f2, Nat.mod_eq_of_lt h3]
  ring

lemma bswap32_decomp (n : Nat) (h : n < 4294967296) :
    n = n % 256 + n / 256 % 256 * 256 + n / 65536 % 256 * 65536 +
      n / 16777216 * 16777216 := by
  omega

lemma bswap32_eq_bytes (n : Nat) (h : n < 4294967296) :
    bswap32 n = n / 16777216 + n / 65536 % 256 * 256 + n / 256 % 256 * 65536 +
      n % 256 * 16777216 := by
  have h3 : n / 16777216 < 256 := by omega
  conv_lhs => rw [bswap32_decomp n h]
  exact bswap32_bytes _ _ _ _ (by omega) (by omega) (by omega) h3

lemma bswap32_bswap32 (n : Nat) (h : n < 4294967296) : bswap32 (bswap32 n) = n := by
  rw [bswap32_eq_bytes n h]
  have h3 : n / 16777216 < 256 := by omega
  rw [bswap32_bytes _ _ _ _ h3 (by omega) (by omega) (by omega)]
  omega

/-! ## List lemmas -/

lemma find?_eq_none_of_all {α : Type} (p : α → Bool) (l : List α)
    (h : ∀ x ∈ l, p x = false) : l.find? p = none := by
  induction l with
  | nil => rfl
  | cons a t ih =>
    rw [List.find?_cons_of_neg]
    · exact ih (fun x hx => h x (List.mem_cons_of_mem a hx))
    · simp [h a (List.mem_cons_self a t)]

lemma find?_eq_getD {α : Type} [Inhabited α] (p : α → Bool) (l : List α) (i : Nat)
    (hi : i < l.length) (hp : p (l.getD i default) = true)
    (hfirst : ∀ j, j < i → p (l.getD j default) = false) :
    l.find? p = some (l.getD i default) := by
  induction l generalizing i with
  | nil => simp at hi
  | cons a t ih =>
    cases i with
    | zero =>
      simp only [List.getD_cons_zero] at hp ⊢
      rw [List.find?_cons_of_pos _ hp]
    | succ i =>
      have h0 : p a = false := by
        have h := hfirst 0 (Nat.succ_pos i)
        simpa using h
      rw [List.find?_cons_of_neg _ (by simp [h0])]
      simp only [List.getD_cons_succ] at hp ⊢
      exact ih i (by simpa using hi) hp
        (fun j hj => by simpa using hfirst (j + 1) (Nat.succ_lt_succ hj))

lemma getD_set_self {α : Type} [Inhabited α] (l : List α) (i : Nat) (v : α)
    (hi : i < l.length) : (l.set i v).getD i default = v := by
  induction l generalizing i with
  | nil => simp at hi
  | cons a t ih =>
    cases i with
    | zero => simp
    | succ i => simpa using ih i (by simpa using hi)

lemma getD_set_ne {α : Type} [Inhabited α] (l : List α) (i j : Nat) (v : α)
    (h : j ≠ i) : (l.set i v).getD j default = l.getD j default := by
  induction l generalizing i j with
  | nil => simp
  | cons a t ih =>
    cases i with
    | zero =>
      cases j with
      | zero => exact absurd rfl h
      | succ j => simp
    | succ i =>
      cases j with
      | zero => simp
      | succ j => simpa using ih i j (fun hh => h (by omega))

/-- The refresh pass returns the first-hit update of the table. -/
lemma refresh_eq_some (reply : DhtMessage) (now : Nat) (cache : List CacheEntry)
    (i : Nat) (hi : i < cache.length)
    (hhit : refreshHit reply now (cache.getD i default) = true)
    (hfirst : ∀ j, j < i → refreshHit reply now (cache.getD j default) = false) :
    refresh reply now cache =
      some (cache.set i
        { entry := now, predecessor := reply.hash,
          peer := (cache.getD i default).peer }) := by
  induction cache generalizing i with
  | nil => simp at hi
  | cons a t ih =>
    cases i with
    | zero =>
      simp only [List.getD_cons_zero] at hhit ⊢
      simp [refresh, hhit]
    | succ i =>
      have h0 : refreshHit reply now a = false := by
        simpa using hfirst 0 (Nat.succ_pos i)
      simp only [List.getD_cons_succ] at hhit ⊢
      simp only [refresh, h0, if_neg]
      rw [ih i (by simpa using hi) hhit
        (fun j hj => by simpa using hfirst (j + 1) (Nat.succ_lt_succ hj))]
      simp

/-- The refresh pass finds no slot iff no slot satisfies its condition. -/
lemma refresh_eq_none (reply : DhtMessage) (now : Nat) (cache : List CacheEntry)
    (h : ∀ e ∈ cache, refreshHit reply now e = false) :
    refresh reply now cache = none := by
  induction cache with
  | nil => rfl
  | cons a t ih =>
    have h0 : refreshHit reply now a = false := h a (List.mem_cons_self a t)
    simp only [refresh, h0, if_neg]
    rw [ih (fun e he => h e (List.mem_cons_of_mem a he))]
    rfl

/-! ## Claim theorems -/

/-- C4: `is_responsible(peer_predecessor, peer, id)` returns true iff
`peer_predecessor == peer` or the ring distance `(peer - id) mod 65536` is
strictly below `(peer_predecessor - id) mod 65536`; in particular
`is_responsible(p, p, id)` is always true. -/
theorem C4_is_responsible_ring_distance (p q id : Nat)
    (hp : p < RING) (hq : q < RING) (hid : id < RING) :
    (is_responsible p q id = true ↔
      p = q ∨ ((q : Int) - id) % 65536 < ((p : Int) - id) % 65536) ∧
    is_responsible p p id = true := by
  constructor
  · unfold is_responsible
    rw [Bool.or_eq_true, beq_iff_eq, decide_eq_true_eq]
    constructor
    · rintro (h | h)
      · exact Or.inl h
      · refine Or.inr ?_
        have h1 := usub16_eq_int_emod q id
        have h2 := usub16_eq_int_emod p id
        omega
    · rintro (h | h)
      · exact Or.inl h
      · refine Or.inr ?_
        have h1 := usub16_eq_int_emod q id
        have h2 := usub16_eq_int_emod p id
        omega
  · unfold is_responsible
    simp

/-- Witness for C4 at p = 5, q = 7, id = 6. -/
theorem C4_is_responsible_ring_distance_witness :
    (is_responsible 5 7 6 = true ↔
      (5 : Nat) = 7 ∨ ((7 : Int) - 6) % 65536 < ((5 : Int) - 6) % 65536) ∧
    is_responsible 5 5 6 = true :=
  C4_is_responsible_ring_distance 5 7 6 (by decide) (by decide) (by decide)

/-- C8: ring-distance wraparound.  `distance(a, a) = 0`, and for `a ≠ b`
the two opposite distances are both nonzero and sum to the ring size. -/
theorem C8_ring_distance_wraparound (a b : Nat) (ha : a < RING) (hb : b < RING) :
    distance a a = 0 ∧
    (a ≠ b →
      distance a b + distance b a = RING ∧ distance a b ≠ 0 ∧ distance b a ≠ 0) := by
  refine ⟨usub16_self a, fun hne => ?_⟩
  refine ⟨?_, usub16_ne_zero b a hb ha (Ne.symm hne), usub16_ne_zero a b ha hb hne⟩
  unfold distance usub16 RING at *
  omega

/-- Witness for C8 at a = 3, b = 65000. -/
theorem C8_ring_distance_wraparound_witness :
    distance 3 3 = 0 ∧
    ((3 : Nat) ≠ 65000 →
      distance 3 65000 + distance 65000 3 = RING ∧
      distance 3 65000 ≠ 0 ∧ distance 65000 3 ≠ 0) :=
  C8_ring_distance_wraparound 3 65000 (by decide) (by decide)

/-- C5: codec involution.  For every message bit pattern — malformed opcode
bytes included — `dht_deserialize (dht_serialize m) = m` and conversely; the
codec byte-swaps exactly `hash`, `peer.id`, `peer.ip`, `peer.port` and leaves
the opcode byte untouched (it is a total function, rejecting no input). -/
theorem C5_codec_involution (m : DhtMessage) (h : wfMessage m) :
    dht_deserialize (dht_serialize m) = m ∧
    dht_serialize (dht_deserialize m) = m ∧
    (dht_serialize m).flags = m.flags ∧
    (dht_serialize m).hash = bswap16 m.hash ∧
    (dht_serialize m).peer.id = bswap16 m.peer.id ∧
    (dht_serialize m).peer.ip = bswap32 m.peer.ip ∧
    (dht_serialize m).peer.port = bswap16 m.peer.port := by
  obtain ⟨flags, hash, ⟨pid, pip, pport⟩⟩ := m
  obtain ⟨hf, hh, hid, hip, hport⟩ := h
  refine ⟨?_, ?_, rfl, rfl, rfl, rfl, rfl⟩
  all_goals
    simp only [dht_serialize, dht_deserialize, ntohs, ntohl,
      DhtMessage.mk.injEq, Peer.mk.injEq, true_and, and_true]
    exact ⟨bswap16_bswap16 _ hh,
      bswap16_bswap16 _ hid, bswap32_bswap32 _ hip, bswap16_bswap16 _ hport⟩

/-- Witness for C5 at a concrete message with a malformed opcode byte 200. -/
theorem C5_codec_involution_witness :
    dht_deserialize (dht_serialize ⟨200, 4660, ⟨513, 3232235777, 8080⟩⟩) =
      (⟨200, 4660, ⟨513, 3232235777, 8080⟩⟩ : DhtMessage) ∧
    dht_serialize (dht_deserialize ⟨200, 4660, ⟨513, 3232235777, 8080⟩⟩) =
      (⟨200, 4660, ⟨513, 3232235777, 8080⟩⟩ : DhtMessage) ∧
    (dht_serialize ⟨200, 4660, ⟨513, 3232235777, 8080⟩⟩).flags = 200 ∧
    (dht_serialize ⟨200, 4660, ⟨513, 3232235777, 8080⟩⟩).hash = bswap16 4660 ∧
    (dht_serialize ⟨200, 4660, ⟨513, 3232235777, 8080⟩⟩).peer.id = bswap16 513 ∧
    (dht_serialize ⟨200, 4660, ⟨513, 3232235777, 8080⟩⟩).peer.ip = bswap32 3232235777 ∧
    (dht_serialize ⟨200, 4660, ⟨513, 3232235777, 8080⟩⟩).peer.port = bswap16 8080 :=
  C5_codec_involution ⟨200, 4660, ⟨513, 3232235777, 8080⟩⟩
    ⟨by decide, by decide, by decide, by decide, by decide⟩

/-- C10: every peer is responsible for its own identifier:
`is_responsible(p, peer, peer)` holds for all 16-bit `p`, `peer`. -/
theorem C10_responsible_for_own_id (p q : Nat) (hp : p < RING) (hq : q < RING) :
    is_responsible p q q = true := by
  unfold is_responsible
  rw [Bool.or_eq_true, beq_iff_eq, decide_eq_true_eq]
  by_cases h : p = q
  · exact Or.inl h
  · refine Or.inr ?_
    have h0 := usub16_self q
    have h1 := usub16_ne_zero p q hp hq h
    omega

/-- Witness for C10 at p = 123, peer = 456. -/
theorem C10_responsible_for_own_id_witness : is_responsible 123 456 456 = true :=
  C10_responsible_for_own_id 123 456 (by decide) (by decide)

/-- C3: responsibility resolution returns `self` when
`is_responsible(predecessor.id, self.id, id)` holds, else `successor` when
`is_responsible(self.id, successor.id, id)` holds, else the peer of the
first cache slot (in physical table order) that matches and is non-stale
(`now - timestamp < 2000` in wraparound arithmetic), else `NULL`;
stale entries are skipped by the scan. -/
theorem C3_dht_responsible_cascade (s : DhtState) (now id : Nat) :
    (∀ e : CacheEntry, cacheHit now id e = true ↔
      (is_responsible e.predecessor e.peer.id id = true ∧
        usub64 now e.entry < LOOKUP_CACHE_VALIDIY_MS)) ∧
    (is_responsible s.predecessor.id s.self.id id = true →
      dht_responsible s now id = some s.self) ∧
    (is_responsible s.predecessor.id s.self.id id = false →
      is_responsible s.self.id s.successor.id id = true →
      dht_responsible s now id = some s.successor) ∧
    (is_responsible s.predecessor.id s.self.id id = false →
      is_responsible s.self.id s.successor.id id = false →
      ((∀ e ∈ s.lookup_cache, cacheHit now id e = false) →
        dht_responsible s now id = none) ∧
      (∀ i, i < s.lookup_cache.length →
        cacheHit now id (s.lookup_cache.getD i default) = true →
        (∀ j, j < i → cacheHit now id (s.lookup_cache.getD j default) = false) →
        dht_responsible s now id = some (s.lookup_cache.getD i default).peer)) := by
  refine ⟨?_, ?_, ?_, ?_⟩
  · intro e
    simp only [cacheHit, outdated, Bool.and_eq_true, Bool.not_eq_true',
      decide_eq_false_iff_not, not_le]
  · intro h1
    simp [dht_responsible, h1]
  · intro h1 h2
    simp [dht_responsible, h1, h2]
  · intro h1 h2
    constructor
    · intro hall
      simp [dht_responsible, h1, h2, find?_eq_none_of_all _ _ hall]
    · intro i hi hhit hfirst
      simp [dht_responsible, h1, h2, find?_eq_getD _ _ i hi hhit hfirst]

/-- Witness for C3, exercising the cache-scan branch: slot 0 does not match,
slot 1 matches and is fresh, so its peer is returned. -/
theorem C3_dht_responsible_cascade_witness :
    dht_responsible
      ⟨⟨10, 0, 0⟩, ⟨20, 0, 0⟩, ⟨30, 0, 0⟩,
        (zeroCache.set 0 ⟨4500, 50, ⟨60, 0, 0⟩⟩).set 1 ⟨4500, 35, ⟨45, 7, 7⟩⟩⟩
      5000 40 =
    some ((((zeroCache.set 0 ⟨4500, 50, ⟨60, 0, 0⟩⟩).set 1
      ⟨4500, 35, ⟨45, 7, 7⟩⟩).getD 1 default).peer) := by
  have h := C3_dht_responsible_cascade
    ⟨⟨10, 0, 0⟩, ⟨20, 0, 0⟩, ⟨30, 0, 0⟩,
      (zeroCache.set 0 ⟨4500, 50, ⟨60, 0, 0⟩⟩).set 1 ⟨4500, 35, ⟨45, 7, 7⟩⟩⟩ 5000 40
  exact (h.2.2.2 (by decide) (by decide)).2 1 (by decide) (by decide)
    (fun j hj => by interval_cases j <;> decide)

/-- C2: a LOOKUP is answered with a REPLY (`hash = self.id`,
`peer = successor`) to its originator exactly when the resolved owner of its
hash equals the successor; otherwise the LOOKUP is forwarded unmodified to
the successor. -/
theorem C2_process_lookup_dispatch (s : DhtState) (now : Nat) (msg : DhtMessage) :
    (dht_responsible s now msg.hash = some s.successor →
      process_lookup s now msg =
        ({ flags := REPLY, hash := s.self.id, peer := s.successor }, msg.peer)) ∧
    (dht_responsible s now msg.hash ≠ some s.successor →
      process_lookup s now msg = (msg, s.successor)) := by
  constructor
  · intro h
    simp [process_lookup, h, peer_cmp]
  · intro h
    unfold process_lookup
    cases hr : dht_responsible s now msg.hash with
    | none => simp [peer_cmp]
    | some p =>
      have hne : (s.successor == p) = false := by
        refine beq_eq_false_iff_ne.mpr ?_
        rintro rfl
        exact h hr
      simp [peer_cmp, hne]

/-- Witness for C2: with predecessor 10, self 20, successor 30 and an empty
cache, a LOOKUP for 25 is answered by a REPLY to the originator and a LOOKUP
for 40 is forwarded unmodified to the successor. -/
theorem C2_process_lookup_dispatch_witness :
    process_lookup ⟨⟨10, 0, 0⟩, ⟨20, 0, 0⟩, ⟨30, 0, 0⟩, []⟩ 0 ⟨0, 25, ⟨99, 9, 9⟩⟩ =
      ({ flags := REPLY, hash := 20, peer := ⟨30, 0, 0⟩ }, ⟨99, 9, 9⟩) ∧
    process_lookup ⟨⟨10, 0, 0⟩, ⟨20, 0, 0⟩, ⟨30, 0, 0⟩, []⟩ 0 ⟨0, 40, ⟨99, 9, 9⟩⟩ =
      (⟨0, 40, ⟨99, 9, 9⟩⟩, ⟨30, 0, 0⟩) :=
  ⟨(C2_process_lookup_dispatch ⟨⟨10, 0, 0⟩, ⟨20, 0, 0⟩, ⟨30, 0, 0⟩, []⟩ 0
      ⟨0, 25, ⟨99, 9, 9⟩⟩).1 (by decide),
   (C2_process_lookup_dispatch ⟨⟨10, 0, 0⟩, ⟨20, 0, 0⟩, ⟨30, 0, 0⟩, []⟩ 0
      ⟨0, 40, ⟨99, 9, 9⟩⟩).2 (by decide)⟩

/-- C9: when responsibility resolution returns `NULL` (`none`), the peer
comparison treats it as unequal to any peer without dereferencing it, and
`process_lookup` forwards the unmodified LOOKUP to the successor. -/
theorem C9_null_resolution_safe (s : DhtState) (now : Nat) (msg : DhtMessage)
    (h : dht_responsible s now msg.hash = none) :
    peer_cmp (some s.successor) none = false ∧
    process_lookup s now msg = (msg, s.successor) := by
  refine ⟨rfl, ?_⟩
  simp [process_lookup, h, peer_cmp]

/-- Witness for C9: the fully zero-initialized cache at time 5000 yields no
owner for id 40, and the LOOKUP is forwarded to the successor. -/
theorem C9_null_resolution_safe_witness :
    peer_cmp (some (⟨30, 0, 0⟩ : Peer)) none = false ∧
    process_lookup ⟨⟨10, 0, 0⟩, ⟨20, 0, 0⟩, ⟨30, 0, 0⟩, zeroCache⟩ 5000
      ⟨0, 40, ⟨99, 9, 9⟩⟩ = (⟨0, 40, ⟨99, 9, 9⟩⟩, ⟨30, 0, 0⟩) :=
  C9_null_resolution_safe ⟨⟨10, 0, 0⟩, ⟨20, 0, 0⟩, ⟨30, 0, 0⟩, zeroCache⟩ 5000
    ⟨0, 40, ⟨99, 9, 9⟩⟩ (by decide)

/-- C6: when some slot stores the REPLY's peer with a timestamp in the past,
`process_reply` updates the first such slot's timestamp to now and its
predecessor to the REPLY's hash, keeps that slot's peer, leaves every other
slot unchanged (same table length), and does not run the eviction pass. -/
theorem C6_refresh_frame (cache : List CacheEntry) (reply : DhtMessage) (now i : Nat)
    (hlen : cache.length = LOOKUP_CACHE_ENTRIES) (hi : i < cache.length)
    (hhit : refreshHit reply now (cache.getD i default) = true)
    (hfirst : ∀ j, j < i → refreshHit reply now (cache.getD j default) = false) :
    process_reply cache reply now =
      cache.set i
        { entry := now, predecessor := reply.hash,
          peer := (cache.getD i default).peer } ∧
    (process_reply cache reply now).getD i default =
      { entry := now, predecessor := reply.hash,
        peer := (cache.getD i default).peer } ∧
    (∀ j, j ≠ i →
      (process_reply cache reply now).getD j default = cache.getD j default) ∧
    (process_reply cache reply now).length = cache.length := by
  have hr := refresh_eq_some reply now cache i hi hhit hfirst
  have hp : process_reply cache reply now =
      cache.set i
        { entry := now, predecessor := reply.hash,
          peer := (cache.getD i default).peer } := by
    unfold process_reply
    rw [hr]
  refine ⟨hp, ?_, ?_, ?_⟩
  · rw [hp]
    exact getD_set_self _ _ _ hi
  · intro j hj
    rw [hp]
    exact getD_set_ne _ _ _ _ hj
  · rw [hp]
    exact List.length_set cache i _

/-- Witness for C6: a 30-slot cache whose slot 2 stores the reply's peer with
timestamp 100 is refreshed in place at time 5000. -/
theorem C6_refresh_frame_witness :
    process_reply (zeroCache.set 2 ⟨100, 7, ⟨50, 5, 5⟩⟩) ⟨1, 77, ⟨50, 5, 5⟩⟩ 5000 =
      (zeroCache.set 2 ⟨100, 7, ⟨50, 5, 5⟩⟩).set 2
        { entry := 5000, predecessor := 77,
          peer := ((zeroCache.set 2 ⟨100, 7, ⟨50, 5, 5⟩⟩).getD 2 default).peer } :=
  (C6_refresh_frame (zeroCache.set 2 ⟨100, 7, ⟨50, 5, 5⟩⟩) ⟨1, 77, ⟨50, 5, 5⟩⟩ 5000 2
    (by decide) (by decide) (by decide)
    (fun j hj => by interval_cases j <;> decide)).1

/-- C7: a message whose opcode is neither LOOKUP (0) nor REPLY (1) produces
no outgoing message and leaves the peer slots and the lookup cache
unchanged. -/
theorem C7_invalid_opcode_drop (s : DhtState) (now : Nat) (msg : DhtMessage)
    (h0 : msg.flags ≠ LOOKUP) (h1 : msg.flags ≠ REPLY) :
    dht_process_message s now msg = (s, none) := by
  simp [dht_process_message, h0, h1]

/-- Witness for C7 at opcode JOIN (4). -/
theorem C7_invalid_opcode_drop_witness :
    dht_process_message ⟨⟨10, 0, 0⟩, ⟨20, 0, 0⟩, ⟨30, 0, 0⟩, zeroCache⟩ 5000
      ⟨4, 0, ⟨1, 1, 1⟩⟩ =
    (⟨⟨10, 0, 0⟩, ⟨20, 0, 0⟩, ⟨30, 0, 0⟩, zeroCache⟩, none) :=
  C7_invalid_opcode_drop ⟨⟨10, 0, 0⟩, ⟨20, 0, 0⟩, ⟨30, 0, 0⟩, zeroCache⟩ 5000
    ⟨4, 0, ⟨1, 1, 1⟩⟩ (by decide) (by decide)

/-- C1 (code bug): the eviction scan of `process_reply` never updates
`oldest_time`, so it selects the last slot whose timestamp is below
`ULONG_MAX`, not the slot with the smallest timestamp.  Starting from the
zero-initialized cache, a first REPLY lands in slot 29, and a second REPLY
from a distinct peer overwrites slot 29 again even though slot 0 still has
timestamp 0 (the actual minimum): distinct-peer REPLYs do not occupy
distinct fresh slots. -/
theorem C1_eviction_bug_demo :
    evict_idx zeroCache = 29 ∧
    process_reply zeroCache ⟨1, 11, ⟨100, 1, 1⟩⟩ 1000 =
      zeroCache.set 29 ⟨1000, 11, ⟨100, 1, 1⟩⟩ ∧
    process_reply (zeroCache.set 29 ⟨1000, 11, ⟨100, 1, 1⟩⟩) ⟨1, 22, ⟨200, 2, 2⟩⟩
      1001 = zeroCache.set 29 ⟨1001, 22, ⟨200, 2, 2⟩⟩ ∧
    (zeroCache.set 29 ⟨1000, 11, ⟨100, 1, 1⟩⟩).getD 0 default = zeroEntry := by
  decide

end Praxis3
